import Mathlib

/-!
Shallow embedding of the acquisition-and-relay service
(src/main.py and src/utils/downloader.py), together with theorems
settling the behavioural claims about it.

External effects (the fetch tool, ffmpeg, the messaging backend, the
clock, the filesystem) are passed in as explicit oracle arguments; the
control flow, constants and string handling are translated directly
from the source.
-/

namespace YT

/-! ## String helpers mirroring Python `err = str(e).lower()` and `"…" in err` -/

/-- Lowercase a string, mirroring Python `str.lower()` on ASCII text. -/
def lowerStr (s : String) : String := String.mk (s.data.map Char.toLower)

/-- `listStartsWith p s` is true when `s` begins with `p`. -/
def listStartsWith : List Char → List Char → Bool
  | [], _ => true
  | _ :: _, [] => false
  | p :: ps, c :: cs => p = c && listStartsWith ps cs

/-- `listContainsSub p s` is true when `p` occurs contiguously inside `s`. -/
def listContainsSub (pat : List Char) : List Char → Bool
  | [] => pat.isEmpty
  | c :: rest => listStartsWith pat (c :: rest) || listContainsSub pat rest

/-- Python `pat in s` on strings: contiguous-substring test. -/
def containsSub (s pat : String) : Bool := listContainsSub pat.toList s.toList

/-- `"requested format is not available" in str(e).lower()`
(src/utils/downloader.py, line 71). -/
def isFmtUnavailable (msg : String) : Bool :=
  containsSub (lowerStr msg) "requested format is not available"

/-! ## Primary acquisition engine (src/utils/downloader.py, `download`)

The external fetch tool is an oracle `Nat → Nat → Outcome` giving, for
tier index `t` and retry index `r`, what that `_run_ydl` invocation does:
it completes and the artifact file exists (`success`), completes with no
file on disk (`noFile`), or raises an exception carrying message `msg`. -/

/-- Outcome of one `_run_ydl` attempt followed by the `os.path.exists` check. -/
inductive Outcome where
  | success
  | noFile
  | err (msg : String)
deriving DecidableEq

/-- The backoff delays `[0, 1, 2, 4]` (src/utils/downloader.py, line 60). -/
def backoff : List Nat := [0, 1, 2, 4]

/-- `enumerate(backoff)`: retry indices paired with their delays. -/
def backoffSched : List (Nat × Nat) := backoff.enum

/-- What running one tier produced: whether the file was obtained, how many
fetch attempts were made, and how much time was slept. -/
structure TierRun where
  found : Bool
  attempts : Nat
  slept : Nat
deriving DecidableEq

/-- The inner retry loop of `download` over the remaining schedule.
An attempt sleeps its delay first, then runs the fetch; on success the
loop returns; an exception whose message signals a format-unavailable
condition breaks out of the tier at once (the nested rate-limit test in
the source affects no control flow beyond this break); any other
exception on the last retry index also ends the tier. -/
def runRetries (oracle : Nat → Outcome) : List (Nat × Nat) → TierRun
  | [] => ⟨false, 0, 0⟩
  | (retryNo, delay) :: rest =>
    match oracle retryNo with
    | .success => ⟨true, 1, delay⟩
    | .noFile =>
        let r := runRetries oracle rest
        ⟨r.found, r.attempts + 1, r.slept + delay⟩
    | .err msg =>
        if isFmtUnavailable msg then ⟨false, 1, delay⟩
        else if retryNo = backoff.length - 1 then ⟨false, 1, delay⟩
        else
          let r := runRetries oracle rest
          ⟨r.found, r.attempts + 1, r.slept + delay⟩

/-- Errors `download` can raise. -/
inductive DlError where
  | invalidType
  | attemptsFailed
deriving DecidableEq

deriving instance DecidableEq for Except

/-- Aggregate result of `download`: the returned path or raised error,
the number of fetch-tool invocations, and the total time slept. -/
structure DlOut where
  result : Except DlError String
  fetchCalls : Nat
  slept : Nat
deriving DecidableEq

/-- Canonical audio path `downloads/{video_id}.webm`. -/
def audioPath (videoId : String) : String := "downloads/" ++ videoId ++ ".webm"

/-- Canonical video path `downloads/{video_id}.mp4`. -/
def videoPath (videoId : String) : String := "downloads/" ++ videoId ++ ".mp4"

/-- The outer tier loop of `download`: run each tier in order with the
full backoff schedule; return the artifact path as soon as a tier finds
the file; raise `attempts failed` when all tiers exhaust. -/
def runTiers (oracle : Nat → Nat → Outcome) (filePath : String) : List Nat → DlOut
  | [] => ⟨.error .attemptsFailed, 0, 0⟩
  | t :: ts =>
    let r := runRetries (oracle t) backoffSched
    if r.found then ⟨.ok filePath, r.attempts, r.slept⟩
    else
      let d := runTiers oracle filePath ts
      ⟨d.result, r.attempts + d.fetchCalls, r.slept + d.slept⟩

/-- `download(video_id, type_)` (src/utils/downloader.py, lines 37-77).
`fileExists` is the initial `os.path.exists(file_path)` check on the
canonical path; both media kinds build a three-tier format list. -/
def download (videoId type_ : String) (fileExists : Bool)
    (oracle : Nat → Nat → Outcome) : DlOut :=
  if type_ = "audio" then
    if fileExists then ⟨.ok (audioPath videoId), 0, 0⟩
    else runTiers oracle (audioPath videoId) [0, 1, 2]
  else if type_ = "video" then
    if fileExists then ⟨.ok (videoPath videoId), 0, 0⟩
    else runTiers oracle (videoPath videoId) [0, 1, 2]
  else ⟨.error .invalidType, 0, 0⟩

/-! ## Compression planner (src/main.py, `TelegramUploader._compress_if_needed`)

An ffmpeg invocation is an oracle from the bitrate argument to
`Option Nat`: `some s` when the command returns 0 and the output file
exists with size `s` (the temp file is overwritten in place), `none`
when the command fails, leaving the temp file as it was. -/

/-- `TELEGRAM_FILE_LIMIT = 50 * 1024 * 1024` (src/main.py, line 33). -/
def TELEGRAM_FILE_LIMIT : Nat := 50 * 1024 * 1024

/-- `TELEGRAM_VIDEO_LIMIT = 50 * 1024 * 1024` (src/main.py, line 34). -/
def TELEGRAM_VIDEO_LIMIT : Nat := 50 * 1024 * 1024

/-- Audio bitrate ladder `["128k", "96k", "64k"]` (src/main.py, line 293). -/
def audioBitrates : List String := ["128k", "96k", "64k"]

/-- Video bitrate ladder `["1M", "800k", "500k"]` (src/main.py, line 310). -/
def videoBitrates : List String := ["1M", "800k", "500k"]

/-- State after the compression for-loop: the current value of the Python
`success` variable and the temp file size written by the last successful
attempt. -/
structure LadderOut where
  success : Bool
  tempSize : Nat
deriving DecidableEq

/-- The bitrate for-loop shared by the audio branch and the MP4 branch of
`_compress_if_needed`: each attempt overwrites `success`, and the loop
breaks as soon as an attempt succeeds with output size within the limit. -/
def runLadder (results : List (Option Nat)) (limit : Nat)
    (success : Bool) (tempSize : Nat) : LadderOut :=
  match results with
  | [] => ⟨success, tempSize⟩
  | r :: rs =>
    match r with
    | none => runLadder rs limit false tempSize
    | some s => if s ≤ limit then ⟨true, s⟩ else runLadder rs limit true s

/-- The final acceptance step after a bitrate ladder: the source returns
the temp path when the `success` flag from the last loop iteration is
set and the temp file exists (it always does), and otherwise removes the
temp file and returns the original path (`none` here). -/
def ladderAccept (results : List (Option Nat)) (limit : Nat) : Option Nat :=
  if (runLadder results limit false 0).success then
    some (runLadder results limit false 0).tempSize
  else none

/-- `_compress_if_needed(file_path, media_type, file_size)`
(src/main.py, lines 275-327). `audOracle` and `vidOracle` map a bitrate
to the outcome of the corresponding ffmpeg run; `webmResult` is the
outcome of `convert_to_webm` (output size of the `.webm` file, or `none`
on failure); an oversized WebM output is removed and the MP4 ladder
runs. The return value is `none` when the original path is returned and
`some s` when the temp path, now of size `s`, is returned. -/
def compress_if_needed (mediaType : String) (fileSize : Nat)
    (audOracle : String → Option Nat) (webmResult : Option Nat)
    (vidOracle : String → Option Nat) : Option Nat :=
  let fileLimit := if mediaType = "video" then TELEGRAM_VIDEO_LIMIT else TELEGRAM_FILE_LIMIT
  if fileSize ≤ fileLimit then none
  else if mediaType = "audio" then
    ladderAccept (audioBitrates.map audOracle) fileLimit
  else if mediaType = "video" then
    match webmResult with
    | some w =>
        if w ≤ fileLimit then some w
        else ladderAccept (videoBitrates.map vidOracle) fileLimit
    | none => ladderAccept (videoBitrates.map vidOracle) fileLimit
  else none

/-! ## Relay engine (src/main.py, `TelegramUploader.upload_file`)

The remote call is an oracle `TgOutcome`; the model records which files
`os.remove` is applied to, to settle the temp-file cleanup claim. -/

/-- Outcome of the `session.post` upload call. -/
inductive TgOutcome where
  | ok200
  | notOk200
  | httpErr (status : Nat)
  | timeout
deriving DecidableEq

/-- Observable result of `upload_file`: the returned status and message
and the list of paths passed to `os.remove`. -/
structure UploadOut where
  status : String
  message : Option String
  removed : List String
deriving DecidableEq

/-- `upload_file(file_path, video_id, media_type, caption)`
(src/main.py, lines 173-273), restricted to the path and cleanup logic:
`compressedPath` is what `_compress_if_needed` returned; when it differs
from `filePath` the local variable `file_path` is reassigned to it
before the upload, and each cleanup site tests
`compressed_path != file_path` against that reassigned variable. -/
def upload_file (fileExistsAtPath : Bool) (filePath compressedPath : String)
    (outcome : TgOutcome) : UploadOut :=
  if !fileExistsAtPath then ⟨"error", some "File not found", []⟩
  else
    let fp := if compressedPath ≠ filePath then compressedPath else filePath
    match outcome with
    | .ok200 =>
        let removed := if compressedPath ≠ fp then [compressedPath] else []
        ⟨"success", none, removed⟩
    | .notOk200 => ⟨"error", some "Upload failed", []⟩
    | .httpErr s =>
        let removed := if compressedPath ≠ fp then [compressedPath] else []
        if s = 413 then ⟨"error", some "File too large even after compression", removed⟩
        else ⟨"error", some ("Upload failed: " ++ toString s), removed⟩
    | .timeout => ⟨"error", some "Upload timeout", []⟩

/-! ## Background relay task (src/main.py, `upload_to_telegram_background`) -/

/-- `upload_to_telegram_background(video_id, media_type, file_path)`
(src/main.py, lines 650-691), as the sequence of writes it performs to
`background_upload_tasks`, each write a pair of task id and status.
`configured` is the `self.telegram_uploader` truthiness test; `call` is
the awaited `upload_file` result, `Except.error` standing for an
exception raised during the await. -/
def upload_to_telegram_background (configured : Bool) (videoId mediaType : String)
    (call : Except Unit UploadOut) : List (String × String) :=
  if !configured then []
  else
    let taskId := videoId ++ "_" ++ mediaType
    match call with
    | .error _ => [(taskId, "uploading"), (taskId, "error")]
    | .ok r =>
        if r.status = "success" then [(taskId, "uploading"), (taskId, "completed")]
        else [(taskId, "uploading"), (taskId, "failed")]

/-! ## Secondary directory search (src/main.py, `TelegramDBManager`)

The cache `channel_cache` is an association list keyed by identifier,
insertion consing a fresh entry and lookup taking the first hit
(dictionary last-write-wins). Times are integers; `Page` abstracts the
outcome of one `getChatHistory` call together with the message scan and
`_extract_file_info` applied to its result. -/

/-- `CACHE_TTL = 3600` (src/main.py, line 27). -/
def CACHE_TTL : Int := 3600

/-- Outcome of one history-page fetch and scan: a matching message with
extractable file info, a scan with no match but a nonempty page (deep
search advances its offset), a 200 reply with an empty result list, a
non-200 or not-ok reply, or a transport exception during the call. -/
inductive Page (α : Type) where
  | found (info : α)
  | noMatchMore
  | noMatchEmpty
  | badStatus
  | exn

/-- Lookup in `channel_cache` (first hit wins). -/
def cacheLookup {α : Type} (c : List (String × α × Int)) (k : String) :
    Option (α × Int) :=
  match c with
  | [] => none
  | (k₂, v, t) :: rest => if k₂ = k then some (v, t) else cacheLookup rest k

/-- `self.channel_cache[video_id] = (file_info, time.time())`. -/
def cacheInsert {α : Type} (c : List (String × α × Int)) (k : String)
    (v : α) (t : Int) : List (String × α × Int) :=
  (k, v, t) :: c

/-- The deep-search page loop (`_deep_search_channel`, src/main.py,
lines 424-464): up to `budget` pages starting at page index `i`; a
non-200 reply, a not-ok or empty result, or an exception ends the search
with `none`; the pair also counts the history calls made. -/
def deepSearchAux {α : Type} (pages : Nat → Page α) : Nat → Nat → Option α × Nat
  | 0, _ => (none, 0)
  | b + 1, i =>
    match pages i with
    | .found info => (some info, 1)
    | .noMatchMore =>
        let r := deepSearchAux pages b (i + 1)
        (r.1, r.2 + 1)
    | .noMatchEmpty => (none, 1)
    | .badStatus => (none, 1)
    | .exn => (none, 1)

/-- `_deep_search_channel(video_id)`: `max_searches // 100 = 5` pages. -/
def deep_search_channel {α : Type} (pages : Nat → Page α) : Option α × Nat :=
  deepSearchAux pages 5 0

/-- The body of `search_in_db_channel` past the cache test: shallow page
scan, then deep search, caching any hit at the current time; an
exception during the shallow call is caught and returns `none` without
reaching the deep search. Returns the result, the new cache, and the
number of history calls made. -/
def searchRemote {α : Type} (cache : List (String × α × Int)) (videoId : String)
    (now : Int) (shallow : Page α) (deepPages : Nat → Page α) :
    Option α × List (String × α × Int) × Nat :=
  match shallow with
  | .exn => (none, cache, 1)
  | .found info => (some info, cacheInsert cache videoId info now, 1)
  | _ =>
      let r := deep_search_channel deepPages
      match r.1 with
      | some info => (some info, cacheInsert cache videoId info now, 1 + r.2)
      | none => (none, cache, 1 + r.2)

/-- `search_in_db_channel(video_id)` (src/main.py, lines 382-422):
a cached entry younger than `CACHE_TTL` is served with no history call;
otherwise the remote search runs. -/
def search_in_db_channel {α : Type} (cache : List (String × α × Int))
    (videoId : String) (now : Int) (shallow : Page α)
    (deepPages : Nat → Page α) : Option α × List (String × α × Int) × Nat :=
  match cacheLookup cache videoId with
  | some (info, ts) =>
      if now - ts < CACHE_TTL then (some info, cache, 0)
      else searchRemote cache videoId now shallow deepPages
  | none => searchRemote cache videoId now shallow deepPages

/-! ## Acquisition orchestrator (src/main.py, `DownloadManager.download_media`
and the `/song/{video_id}` endpoint) -/

/-- `API_KEY` default `"Shadow"` (src/main.py, line 25). -/
def API_KEY : String := "Shadow"

/-- The local-file link built when no `Request` object is available:
`f"/file/{video_id}?api={API_KEY}&type={media_type}"` (src/main.py,
line 617). -/
def fileLink (videoId mediaType : String) : String :=
  "/file/" ++ videoId ++ "?api=" ++ API_KEY ++ "&type=" ++ mediaType

/-- Result of `LocalDownloadManager.download_media` (src/main.py,
lines 566-587): the file path on success, or the error message. -/
inductive LocalRes where
  | ok (filePath : String)
  | err (message : String)
deriving DecidableEq

/-- `LocalDownloadManager.download_media` composed with the downloader:
a raised exception becomes the `Local download error:` message. -/
def local_download_media (videoId type_ : String) (fileExists : Bool)
    (oracle : Nat → Nat → Outcome) : LocalRes :=
  match (download videoId type_ fileExists oracle).result with
  | .ok p => .ok p
  | .error .invalidType => .err "Local download error: Invalid type"
  | .error .attemptsFailed => .err "Local download error: attempts failed"

/-- The dictionary `DownloadManager.download_media` returns, plus a count
of `search_in_db_channel` invocations made while producing it. -/
structure DMOut (α : Type) where
  status : String
  rtype : Option String
  link : Option String
  filePath : Option String
  source : Option String
  fileInfo : Option α
  message : Option String
  searchCalls : Nat

/-- `DownloadManager.download_media(video_id, media_type)` (src/main.py,
lines 602-648), with `request = None`: local downloader first; on local
failure and a configured DB manager, one `search_in_db_channel` call;
a found entry is returned only when `get_file_download_url` (modelled by
`urlFor`) resolves it; otherwise the local error message is returned. -/
def download_media {α : Type} (videoId mediaType : String) (localRes : LocalRes)
    (hasDb : Bool) (dbSearch : Option α) (urlFor : α → Option String) : DMOut α :=
  match localRes with
  | .ok fp =>
      ⟨"success", some "local_file", some (fileLink videoId mediaType), some fp,
        some "local_downloader", none, none, 0⟩
  | .err msg =>
      if hasDb then
        match dbSearch with
        | some info =>
            match urlFor info with
            | some url =>
                ⟨"success", some "db_channel", some url, none, some "telegram_db",
                  some info, none, 1⟩
            | none => ⟨"error", none, none, none, none, none, some msg, 1⟩
        | none => ⟨"error", none, none, none, none, none, some msg, 1⟩
      else ⟨"error", none, none, none, none, none, some msg, 0⟩

/-- The JSON payload the `/song/{video_id}` endpoint answers with. -/
structure SongResp where
  status : String
  link : Option String
  rtype : Option String
  videoId : Option String
  source : Option String
  backgroundUpload : Option String
  uploadTaskId : Option String
  message : Option String
  httpCode : Nat
deriving DecidableEq

/-- The `song` endpoint handler (src/main.py, lines 735-774) given the
`download_media` result: the response payload and, when a background
relay is scheduled, the `(video_id, media_type, file_path)` arguments it
is scheduled with. -/
def song {α : Type} (videoId : String) (upload : Bool) (dm : DMOut α) :
    SongResp × Option (String × String × String) :=
  if dm.status = "success" then
    let base : SongResp :=
      ⟨"done", dm.link, some (dm.rtype.getD "stream"), some videoId,
        some (dm.source.getD "unknown"), none, none, none, 200⟩
    if upload = true ∧ dm.source = some "local_downloader" ∧ dm.filePath.isSome = true then
      ({ base with backgroundUpload := some "started",
                   uploadTaskId := some (videoId ++ "_audio") },
        some (videoId, "audio", dm.filePath.getD ""))
    else (base, none)
  else
    (⟨"error", none, none, none, none, none, none,
        some (dm.message.getD "Download failed"), 500⟩, none)

/-- Fetch oracle for the abc123 scenario: every attempt in the first
tier raises a format-unavailable error and the next tier succeeds,
writing the artifact. -/
def scenarioOracle : Nat → Nat → Outcome := fun t _ =>
  if t = 0 then
    .err "ERROR: [youtube] abc123: Requested format is not available. Use --list-formats for a list of available formats"
  else .success

/-- The orchestrator result for the abc123 audio scenario: no local
file, DB manager configured but not reached. -/
def dmScenario : DMOut String :=
  download_media "abc123" "audio"
    (local_download_media "abc123" "audio" false scenarioOracle)
    true none (fun _ => none)

/-! ## Theorems -/

/-- `enumerate([0, 1, 2, 4])` spelled out. -/
theorem backoffSched_eq : backoffSched = [(0, 0), (1, 1), (2, 2), (3, 4)] := rfl

/-- C7: the primary acquisition engine is idempotent on the local file:
for kind audio or video, when the canonical file already exists,
`download` returns that path with zero fetch-tool invocations. -/
theorem download_idempotent_on_existing_file (videoId type_ : String)
    (oracle : Nat → Nat → Outcome) (h : type_ = "audio" ∨ type_ = "video") :
    (download videoId type_ true oracle).fetchCalls = 0 ∧
    (download videoId type_ true oracle).result =
      .ok (if type_ = "audio" then audioPath videoId else videoPath videoId) := by
  rcases h with h | h <;> subst h <;> exact ⟨rfl, rfl⟩

theorem download_idempotent_on_existing_file_witness :
    ("audio" = "audio" ∨ "audio" = "video") ∧
    ((download "vid01" "audio" true (fun _ _ => .noFile)).fetchCalls = 0 ∧
     (download "vid01" "audio" true (fun _ _ => .noFile)).result =
       .ok (if "audio" = "audio" then audioPath "vid01" else videoPath "vid01")) :=
  ⟨Or.inl rfl,
   download_idempotent_on_existing_file "vid01" "audio" (fun _ _ => .noFile) (Or.inl rfl)⟩

/-- C9: for a kind other than audio or video, `download` raises
ValueError at once: no fetch attempt is made and no time is slept,
whatever the oracle and the initial file state. -/
theorem download_invalid_type_raises (videoId type_ : String) (fe : Bool)
    (oracle : Nat → Nat → Outcome) (h1 : type_ ≠ "audio") (h2 : type_ ≠ "video") :
    download videoId type_ fe oracle = ⟨.error .invalidType, 0, 0⟩ := by
  simp [download, h1, h2]

theorem download_invalid_type_raises_witness :
    "document" ≠ "audio" ∧ "document" ≠ "video" ∧
    download "vid01" "document" true (fun _ _ => .success) =
      ⟨.error .invalidType, 0, 0⟩ :=
  ⟨by decide, by decide,
   download_invalid_type_raises "vid01" "document" true (fun _ _ => .success)
     (by decide) (by decide)⟩

/-- C8: within one background relay execution with a configured uploader,
the registry writes are exactly the pair uploading-then-terminal, the
terminal status being completed, failed or error; uploading is written
exactly once and never re-entered. -/
theorem relay_status_monotonic (videoId mediaType : String)
    (call : Except Unit UploadOut) :
    ∃ t, upload_to_telegram_background true videoId mediaType call =
        [(videoId ++ "_" ++ mediaType, "uploading"), (videoId ++ "_" ++ mediaType, t)] ∧
      (t = "completed" ∨ t = "failed" ∨ t = "error") ∧ t ≠ "uploading" := by
  cases call with
  | error u => exact ⟨"error", rfl, Or.inr (Or.inr rfl), by decide⟩
  | ok r =>
    by_cases h : r.status = "success"
    · exact ⟨"completed", by simp [upload_to_telegram_background, h],
        Or.inl rfl, by decide⟩
    · exact ⟨"failed", by simp [upload_to_telegram_background, h],
        Or.inr (Or.inl rfl), by decide⟩

/-- C3: an attempt that fails with a message signalling that the
requested format is not available ends its tier at once: exactly that
one attempt is made from that point of the schedule, none of the
remaining backoff delays is slept, and the engine moves to the next
tier; in particular, with a format-unavailable error on the first tier
and a success on the second, `download` returns the second-tier artifact
after one attempt per tier and no sleeping. -/
theorem tier_abandoned_on_format_unavailable
    (oracle2 : Nat → Nat → Outcome) (videoId msg : String)
    (hfmt : isFmtUnavailable msg = true) :
    (∀ (oracle : Nat → Outcome) (retryNo delay : Nat) (rest : List (Nat × Nat)),
        oracle retryNo = .err msg →
        runRetries oracle ((retryNo, delay) :: rest) = ⟨false, 1, delay⟩) ∧
    (oracle2 0 0 = .err msg → oracle2 1 0 = .success →
        download videoId "audio" false oracle2 = ⟨.ok (audioPath videoId), 2, 0⟩) := by
  constructor
  · intro oracle retryNo delay rest h
    simp [runRetries, h, hfmt]
  · intro h0 h1
    show runTiers oracle2 (audioPath videoId) [0, 1, 2] = _
    simp [runTiers, backoffSched_eq, runRetries, h0, h1, hfmt]

theorem tier_abandoned_on_format_unavailable_witness :
    isFmtUnavailable "Requested format is not available" = true ∧
    download "dQw4w9WgXcQ" "audio" false
        (fun t _ => if t = 0 then .err "Requested format is not available" else .success) =
      ⟨.ok (audioPath "dQw4w9WgXcQ"), 2, 0⟩ :=
  ⟨by decide,
   (tier_abandoned_on_format_unavailable
      (fun t _ => if t = 0 then .err "Requested format is not available" else .success)
      "dQw4w9WgXcQ" "Requested format is not available" (by decide)).2 rfl rfl⟩

/-- Every run of the remote search makes at least one history call. -/
theorem searchRemote_calls_pos {α : Type} (cache : List (String × α × Int))
    (videoId : String) (now : Int) (shallow : Page α) (deepPages : Nat → Page α) :
    1 ≤ (searchRemote cache videoId now shallow deepPages).2.2 := by
  cases shallow <;>
    simp only [searchRemote] <;>
    first
      | exact le_refl 1
      | (rcases h2 : (deep_search_channel deepPages).1 with _ | info <;> simp [h2])

/-- C4: the TTL law. A cached entry of age under `CACHE_TTL` is served
unmodified with zero history calls and an unchanged cache; a cached
entry of age at least `CACHE_TTL` is ignored and the lookup behaves as
the fresh remote search, which makes at least one history call. -/
theorem cache_ttl_law {α : Type} (cache : List (String × α × Int))
    (videoId : String) (info : α) (ts now : Int) (shallow : Page α)
    (deepPages : Nat → Page α)
    (hc : cacheLookup cache videoId = some (info, ts)) :
    (now - ts < CACHE_TTL →
      search_in_db_channel cache videoId now shallow deepPages = (some info, cache, 0)) ∧
    (CACHE_TTL ≤ now - ts →
      search_in_db_channel cache videoId now shallow deepPages =
        searchRemote cache videoId now shallow deepPages ∧
      1 ≤ (search_in_db_channel cache videoId now shallow deepPages).2.2) := by
  constructor
  · intro h
    simp [search_in_db_channel, hc, h]
  · intro h
    have hlt : ¬ (now - ts < CACHE_TTL) := not_lt.mpr h
    have he : search_in_db_channel cache videoId now shallow deepPages =
        searchRemote cache videoId now shallow deepPages := by
      simp [search_in_db_channel, hc, hlt]
    exact ⟨he, he ▸ searchRemote_calls_pos cache videoId now shallow deepPages⟩

theorem cache_ttl_law_witness :
    cacheLookup [("xyz", "INFO", (1000 : Int))] "xyz" = some ("INFO", 1000) ∧
    (((1500 : Int) - 1000 < CACHE_TTL) ∧
      search_in_db_channel [("xyz", "INFO", (1000 : Int))] "xyz" 1500 Page.badStatus
        (fun _ => Page.badStatus) = (some "INFO", [("xyz", "INFO", (1000 : Int))], 0)) ∧
    ((CACHE_TTL ≤ (5000 : Int) - 1000) ∧
      1 ≤ (search_in_db_channel [("xyz", "INFO", (1000 : Int))] "xyz" 5000 Page.badStatus
        (fun _ => Page.badStatus)).2.2) :=
  ⟨rfl,
   ⟨by decide,
    (cache_ttl_law [("xyz", "INFO", (1000 : Int))] "xyz" "INFO" 1000 1500
      Page.badStatus (fun _ => Page.badStatus) rfl).1 (by decide)⟩,
   ⟨by decide,
    ((cache_ttl_law [("xyz", "INFO", (1000 : Int))] "xyz" "INFO" 1000 5000
      Page.badStatus (fun _ => Page.badStatus) rfl).2 (by decide)).2⟩⟩

/-- A remote search that comes back empty leaves the cache untouched. -/
theorem searchRemote_none_cache {α : Type} (cache : List (String × α × Int))
    (videoId : String) (now : Int) (shallow : Page α) (deepPages : Nat → Page α)
    (h : (searchRemote cache videoId now shallow deepPages).1 = none) :
    (searchRemote cache videoId now shallow deepPages).2.1 = cache := by
  cases shallow with
  | exn => rfl
  | found info => simp [searchRemote] at h
  | noMatchMore =>
      rcases h2 : (deep_search_channel deepPages).1 with _ | info₂
      · simp [searchRemote, h2]
      · simp [searchRemote, h2] at h
  | noMatchEmpty =>
      rcases h2 : (deep_search_channel deepPages).1 with _ | info₂
      · simp [searchRemote, h2]
      · simp [searchRemote, h2] at h
  | badStatus =>
      rcases h2 : (deep_search_channel deepPages).1 with _ | info₂
      · simp [searchRemote, h2]
      · simp [searchRemote, h2] at h

/-- C10: the cache never stores negative results: whenever
`search_in_db_channel` returns `none`, the cache it leaves behind is
exactly the cache it started from. -/
theorem negative_results_not_cached {α : Type} (cache : List (String × α × Int))
    (videoId : String) (now : Int) (shallow : Page α) (deepPages : Nat → Page α)
    (h : (search_in_db_channel cache videoId now shallow deepPages).1 = none) :
    (search_in_db_channel cache videoId now shallow deepPages).2.1 = cache := by
  rcases hc : cacheLookup cache videoId with _ | ⟨info, ts⟩
  · have he : search_in_db_channel cache videoId now shallow deepPages =
        searchRemote cache videoId now shallow deepPages := by
      simp [search_in_db_channel, hc]
    rw [he] at h ⊢
    exact searchRemote_none_cache cache videoId now shallow deepPages h
  · by_cases ht : now - ts < CACHE_TTL
    · have he : search_in_db_channel cache videoId now shallow deepPages =
          (some info, cache, 0) := by
        simp [search_in_db_channel, hc, ht]
      rw [he] at h
      simp at h
    · have he : search_in_db_channel cache videoId now shallow deepPages =
          searchRemote cache videoId now shallow deepPages := by
        simp [search_in_db_channel, hc, ht]
      rw [he] at h ⊢
      exact searchRemote_none_cache cache videoId now shallow deepPages h

theorem negative_results_not_cached_witness :
    (search_in_db_channel ([] : List (String × String × Int)) "xyz" 1000
        Page.badStatus (fun _ => Page.badStatus)).1 = none ∧
    (search_in_db_channel ([] : List (String × String × Int)) "xyz" 1000
        Page.badStatus (fun _ => Page.badStatus)).2.1 = [] :=
  ⟨rfl,
   negative_results_not_cached [] "xyz" 1000 Page.badStatus (fun _ => Page.badStatus) rfl⟩

/-- C1 counterexample: with a 120MB audio artifact and the 50MB limit,
an ffmpeg that always produces a 60MB output makes the planner run the
whole bitrate ladder and then return the temp path of the still-60MB
compressed file instead of reporting failure via the original path. -/
theorem compress_planner_returns_oversize_cex :
    compress_if_needed "audio" (120 * 1024 * 1024)
        (fun _ => some (60 * 1024 * 1024)) none (fun _ => none) =
      some (60 * 1024 * 1024) ∧
    ¬ (60 * 1024 * 1024 ≤ TELEGRAM_FILE_LIMIT) ∧
    TELEGRAM_FILE_LIMIT < 120 * 1024 * 1024 := by
  refine ⟨rfl, by decide, by decide⟩

/-- If a ladder run ends with the success flag set but the temp size
over the limit, the final size was written by the last element of the
remaining schedule (or, for an empty schedule, was already there). -/
theorem runLadder_over_general (results : List (Option Nat)) (limit : Nat) :
    ∀ (b0 : Bool) (s0 : Nat),
      (runLadder results limit b0 s0).success = true →
      limit < (runLadder results limit b0 s0).tempSize →
      (results = [] ∧ b0 = true ∧ (runLadder results limit b0 s0).tempSize = s0) ∨
      ∃ pre, results = pre ++ [some (runLadder results limit b0 s0).tempSize] := by
  induction results with
  | nil =>
      intro b0 s0 h _
      exact Or.inl ⟨rfl, h, rfl⟩
  | cons r rs ih =>
      intro b0 s0 h hover
      rcases r with _ | s
      · have hred : runLadder (none :: rs) limit b0 s0 = runLadder rs limit false s0 := rfl
        rw [hred] at h hover ⊢
        rcases ih false s0 h hover with ⟨_, hb, _⟩ | ⟨pre, hpre⟩
        · exact absurd hb (by decide)
        · exact Or.inr ⟨none :: pre, by rw [List.cons_append, ← hpre]⟩
      · by_cases hs : s ≤ limit
        · have hred : runLadder (some s :: rs) limit b0 s0 = ⟨true, s⟩ := by
            simp [runLadder, hs]
          rw [hred] at hover
          exact absurd hover (by simpa using hs)
        · have hred : runLadder (some s :: rs) limit b0 s0 = runLadder rs limit true s := by
            simp [runLadder, hs]
          rw [hred] at h hover ⊢
          rcases ih true s h hover with ⟨hnil, _, hts⟩ | ⟨pre, hpre⟩
          · subst hnil
            exact Or.inr ⟨[], by simp [runLadder]⟩
          · exact Or.inr ⟨some s :: pre, by rw [List.cons_append, ← hpre]⟩

/-- If the three-rung ladder ends with the success flag set but the temp
size over the limit, the last rung produced exactly that temp file. -/
theorem runLadder3_over (a b c : Option Nat) (limit : Nat)
    (h : (runLadder [a, b, c] limit false 0).success = true)
    (hover : limit < (runLadder [a, b, c] limit false 0).tempSize) :
    c = some (runLadder [a, b, c] limit false 0).tempSize := by
  rcases runLadder_over_general [a, b, c] limit false 0 h hover with ⟨hnil, _, _⟩ | ⟨pre, hpre⟩
  · exact absurd hnil (by simp)
  · generalize (runLadder [a, b, c] limit false 0).tempSize = ts at hpre ⊢
    rcases pre with _ | ⟨x, _ | ⟨y, _ | ⟨z, rest⟩⟩⟩ <;> simp_all

/-- Case analysis of the ladder-then-accept pattern: the planner branch
returns the original, or an in-limit temp file, or an oversized temp
file that is exactly the output of the last rung. -/
theorem ladderAccept_cases (a b c : Option Nat) (limit : Nat) :
    ladderAccept [a, b, c] limit = none ∨
    (∃ s, ladderAccept [a, b, c] limit = some s ∧ s ≤ limit) ∨
    (∃ s, ladderAccept [a, b, c] limit = some s ∧ limit < s ∧ c = some s) := by
  by_cases hs : (runLadder [a, b, c] limit false 0).success = true
  · by_cases hsz : (runLadder [a, b, c] limit false 0).tempSize ≤ limit
    · exact Or.inr (Or.inl ⟨_, by simp [ladderAccept, hs], hsz⟩)
    · exact Or.inr (Or.inr ⟨_, by simp [ladderAccept, hs], not_le.mp hsz,
        runLadder3_over a b c limit hs (not_le.mp hsz)⟩)
  · exact Or.inl (by simp [ladderAccept, hs])

/-- C1 amended: for an artifact over the limit, the planner returns the
original path, or a compressed file within the limit, or — when the
ladder is exhausted with its final re-encode attempt succeeding but
still oversized — that final oversized output (the output of the 64k
audio rung or the 500k video rung). -/
theorem compress_planner_bounded_or_last_rung (mediaType : String) (fileSize : Nat)
    (aud : String → Option Nat) (webm : Option Nat) (vid : String → Option Nat)
    (h : (if mediaType = "video" then TELEGRAM_VIDEO_LIMIT else TELEGRAM_FILE_LIMIT)
      < fileSize) :
    compress_if_needed mediaType fileSize aud webm vid = none ∨
    (∃ s, compress_if_needed mediaType fileSize aud webm vid = some s ∧
      s ≤ (if mediaType = "video" then TELEGRAM_VIDEO_LIMIT else TELEGRAM_FILE_LIMIT)) ∨
    (∃ s, compress_if_needed mediaType fileSize aud webm vid = some s ∧
      (if mediaType = "video" then TELEGRAM_VIDEO_LIMIT else TELEGRAM_FILE_LIMIT) < s ∧
      (aud "64k" = some s ∨ vid "500k" = some s)) := by
  have hns : ¬ (fileSize ≤
      (if mediaType = "video" then TELEGRAM_VIDEO_LIMIT else TELEGRAM_FILE_LIMIT)) :=
    not_le.mpr h
  by_cases hv : mediaType = "video"
  · subst hv
    have hns2 : ¬ (fileSize ≤ TELEGRAM_VIDEO_LIMIT) := hns
    rcases webm with _ | w
    · have he : compress_if_needed "video" fileSize aud none vid =
          ladderAccept [vid "1M", vid "800k", vid "500k"] TELEGRAM_VIDEO_LIMIT := by
        show (if fileSize ≤ TELEGRAM_VIDEO_LIMIT then none
              else ladderAccept [vid "1M", vid "800k", vid "500k"] TELEGRAM_VIDEO_LIMIT) = _
        rw [if_neg hns2]
      rw [he]
      rcases ladderAccept_cases (vid "1M") (vid "800k") (vid "500k") TELEGRAM_VIDEO_LIMIT with
        h1 | ⟨s, hs, hle⟩ | ⟨s, hs, hlt, hc⟩
      · exact Or.inl h1
      · exact Or.inr (Or.inl ⟨s, hs, hle⟩)
      · exact Or.inr (Or.inr ⟨s, hs, hlt, Or.inr hc⟩)
    · have he : compress_if_needed "video" fileSize aud (some w) vid =
          (if w ≤ TELEGRAM_VIDEO_LIMIT then some w
           else ladderAccept [vid "1M", vid "800k", vid "500k"] TELEGRAM_VIDEO_LIMIT) := by
        show (if fileSize ≤ TELEGRAM_VIDEO_LIMIT then none
              else if w ≤ TELEGRAM_VIDEO_LIMIT then some w
              else ladderAccept [vid "1M", vid "800k", vid "500k"] TELEGRAM_VIDEO_LIMIT) = _
        rw [if_neg hns2]
      rw [he]
      by_cases hw : w ≤ TELEGRAM_VIDEO_LIMIT
      · exact Or.inr (Or.inl ⟨w, by rw [if_pos hw], hw⟩)
      · rw [if_neg hw]
        rcases ladderAccept_cases (vid "1M") (vid "800k") (vid "500k") TELEGRAM_VIDEO_LIMIT with
          h1 | ⟨s, hs, hle⟩ | ⟨s, hs, hlt, hc⟩
        · exact Or.inl h1
        · exact Or.inr (Or.inl ⟨s, hs, hle⟩)
        · exact Or.inr (Or.inr ⟨s, hs, hlt, Or.inr hc⟩)
  · simp only [if_neg hv] at hns ⊢
    by_cases ha : mediaType = "audio"
    · subst ha
      have he : compress_if_needed "audio" fileSize aud webm vid =
          ladderAccept [aud "128k", aud "96k", aud "64k"] TELEGRAM_FILE_LIMIT := by
        show (if fileSize ≤ TELEGRAM_FILE_LIMIT then none
              else ladderAccept [aud "128k", aud "96k", aud "64k"] TELEGRAM_FILE_LIMIT) = _
        rw [if_neg hns]
      rw [he]
      rcases ladderAccept_cases (aud "128k") (aud "96k") (aud "64k") TELEGRAM_FILE_LIMIT with
        h1 | ⟨s, hs, hle⟩ | ⟨s, hs, hlt, hc⟩
      · exact Or.inl h1
      · exact Or.inr (Or.inl ⟨s, hs, hle⟩)
      · exact Or.inr (Or.inr ⟨s, hs, hlt, Or.inl hc⟩)
    · refine Or.inl ?_
      simp [compress_if_needed, hv, ha, hns]

theorem compress_planner_bounded_or_last_rung_witness :
    TELEGRAM_FILE_LIMIT < 120 * 1024 * 1024 ∧
    (compress_if_needed "audio" (120 * 1024 * 1024)
        (fun _ => some (45 * 1024 * 1024)) none (fun _ => none) = none ∨
     (∃ s, compress_if_needed "audio" (120 * 1024 * 1024)
        (fun _ => some (45 * 1024 * 1024)) none (fun _ => none) = some s ∧
       s ≤ (if "audio" = "video" then TELEGRAM_VIDEO_LIMIT else TELEGRAM_FILE_LIMIT)) ∨
     (∃ s, compress_if_needed "audio" (120 * 1024 * 1024)
        (fun _ => some (45 * 1024 * 1024)) none (fun _ => none) = some s ∧
       (if "audio" = "video" then TELEGRAM_VIDEO_LIMIT else TELEGRAM_FILE_LIMIT) < s ∧
       ((fun _ => some (45 * 1024 * 1024)) "64k" = some s ∨
        (fun _ => (none : Option Nat)) "500k" = some s))) :=
  ⟨by decide,
   compress_planner_bounded_or_last_rung "audio" (120 * 1024 * 1024)
     (fun _ => some (45 * 1024 * 1024)) none (fun _ => none) (by decide)⟩

/-- C2: evaluation of `upload_file` at the failing input: a compressed
temp file was created (its path differs from the original), yet on a
successful upload, on a non-2xx rejection and on a timeout the set of
removed files is empty — the temp file is never deleted, because after
`file_path` is reassigned to the compressed path every cleanup guard
`compressed_path != file_path` is false, and the timeout branch has no
cleanup at all. The original artifact is likewise never deleted. -/
theorem upload_temp_file_never_removed :
    "/tmp/t.webm" ≠ "downloads/a.webm" ∧
    (upload_file true "downloads/a.webm" "/tmp/t.webm" .ok200).removed = [] ∧
    (upload_file true "downloads/a.webm" "/tmp/t.webm" .ok200).status = "success" ∧
    (upload_file true "downloads/a.webm" "/tmp/t.webm" (.httpErr 400)).removed = [] ∧
    (upload_file true "downloads/a.webm" "/tmp/t.webm" .timeout).removed = [] := by
  exact ⟨by decide, rfl, rfl, rfl, rfl⟩

/-- C5 counterexample: the primary fails, the directory search yields an
entry, but resolving its download URL fails; the orchestrator still
returns an error, refuting that an error is returned only when
`search_in_db_channel` yields nothing. -/
theorem orchestrator_error_despite_db_hit_cex :
    (download_media (α := String) "abc" "audio"
        (.err "Local download failed - file not found") true (some "FILE_ID")
        (fun _ => none)).status = "error" ∧
    (download_media (α := String) "abc" "audio"
        (.err "Local download failed - file not found") true (some "FILE_ID")
        (fun _ => none)).searchCalls = 1 ∧
    (some "FILE_ID" : Option String) ≠ none := by
  exact ⟨rfl, rfl, by decide⟩

/-- C5 amended: on primary success the search is never called and the
local link is returned; on primary failure with a configured DB manager
the search is called exactly once and an error is returned exactly when
the search yields nothing or the URL of the found entry fails to resolve;
with no DB manager configured the search is not called at all. -/
theorem orchestrator_fallback_amended {α : Type} (videoId mediaType : String)
    (localRes : LocalRes) (hasDb : Bool) (dbSearch : Option α)
    (urlFor : α → Option String) :
    (∀ fp, localRes = .ok fp →
      (download_media videoId mediaType localRes hasDb dbSearch urlFor).searchCalls = 0 ∧
      (download_media videoId mediaType localRes hasDb dbSearch urlFor).status = "success" ∧
      (download_media videoId mediaType localRes hasDb dbSearch urlFor).link =
        some (fileLink videoId mediaType) ∧
      (download_media videoId mediaType localRes hasDb dbSearch urlFor).source =
        some "local_downloader") ∧
    (∀ msg, localRes = .err msg → hasDb = true →
      (download_media videoId mediaType localRes hasDb dbSearch urlFor).searchCalls = 1 ∧
      ((download_media videoId mediaType localRes hasDb dbSearch urlFor).status = "error" ↔
        dbSearch = none ∨ ∃ info, dbSearch = some info ∧ urlFor info = none)) ∧
    (∀ msg, localRes = .err msg → hasDb = false →
      (download_media videoId mediaType localRes hasDb dbSearch urlFor).searchCalls = 0 ∧
      (download_media videoId mediaType localRes hasDb dbSearch urlFor).status = "error") := by
  refine ⟨?_, ?_, ?_⟩
  · intro fp hfp
    subst hfp
    exact ⟨rfl, rfl, rfl, rfl⟩
  · intro msg hmsg hdb
    subst hmsg
    subst hdb
    rcases dbSearch with _ | info
    · refine ⟨rfl, ?_⟩
      have hst : (download_media videoId mediaType (.err msg) true (none : Option α)
          urlFor).status = "error" := rfl
      rw [hst]
      simp
    · rcases hu : urlFor info with _ | url
      · refine ⟨by simp [download_media, hu], ?_, fun _ => by simp [download_media, hu]⟩
        intro _
        exact Or.inr ⟨info, rfl, hu⟩
      · refine ⟨by simp [download_media, hu], ?_, ?_⟩
        · intro hst
          exfalso
          have : (download_media videoId mediaType (.err msg) true (some info)
              urlFor).status = "success" := by simp [download_media, hu]
          rw [this] at hst
          exact absurd hst (by decide)
        · intro hd
          rcases hd with h1 | ⟨info₂, h2, h3⟩
          · exact absurd h1 (by simp)
          · rw [show info = info₂ from by injection h2] at hu
            rw [hu] at h3
            exact absurd h3 (by simp)
  · intro msg hmsg hdb
    subst hmsg
    subst hdb
    exact ⟨rfl, rfl⟩

theorem orchestrator_fallback_amended_witness :
    ((download_media (α := String) "v1" "audio" (.ok "downloads/v1.webm") true none
        (fun _ => none)).searchCalls = 0 ∧
     (download_media (α := String) "v1" "audio" (.ok "downloads/v1.webm") true none
        (fun _ => none)).status = "success") ∧
    (download_media (α := String) "v1" "audio" (.err "m") true none
        (fun _ => none)).searchCalls = 1 ∧
    (download_media (α := String) "v1" "audio" (.err "m") false none
        (fun _ => none)).searchCalls = 0 := by
  refine ⟨?_, ?_, ?_⟩
  · have h := (orchestrator_fallback_amended (α := String) "v1" "audio"
      (.ok "downloads/v1.webm") true none (fun _ => none)).1 "downloads/v1.webm" rfl
    exact ⟨h.1, h.2.1⟩
  · exact ((orchestrator_fallback_amended (α := String) "v1" "audio" (.err "m") true
      none (fun _ => none)).2.1 "m" rfl rfl).1
  · exact ((orchestrator_fallback_amended (α := String) "v1" "audio" (.err "m") false
      none (fun _ => none)).2.2 "m" rfl rfl).1

/-- C6 counterexample: in the abc123 audio scenario (no local file,
tier-1 format unavailable, tier-2 success) the endpoint answers with
status done and source local_downloader, not status success and source
local as claimed. -/
theorem song_scenario_status_cex :
    (song "abc123" true dmScenario).1.status = "done" ∧
    (song "abc123" true dmScenario).1.status ≠ "success" ∧
    (song "abc123" true dmScenario).1.source = some "local_downloader" ∧
    (song "abc123" true dmScenario).1.source ≠ some "local" := by
  refine ⟨rfl, ?_, rfl, ?_⟩
  · rw [show (song "abc123" true dmScenario).1.status = "done" from rfl]
    decide
  · rw [show (song "abc123" true dmScenario).1.source = some "local_downloader" from rfl]
    decide

/-- C6 amended: the scenario response carries status done, type
local_file, source local_downloader, a started background upload with
task id abc123_audio and the local-file link; the scheduled background
relay for the downloaded artifact enters the registry with its first
write setting abc123_audio to uploading. -/
theorem song_scenario_amended (call : Except Unit UploadOut) :
    (song "abc123" true dmScenario).1 =
      ⟨"done", some (fileLink "abc123" "audio"), some "local_file", some "abc123",
        some "local_downloader", some "started", some "abc123_audio", none, 200⟩ ∧
    (song "abc123" true dmScenario).2 = some ("abc123", "audio", audioPath "abc123") ∧
    (upload_to_telegram_background true "abc123" "audio" call).head? =
      some ("abc123_audio", "uploading") := by
  refine ⟨rfl, rfl, ?_⟩
  cases call with
  | error u => rfl
  | ok r =>
      by_cases h : r.status = "success" <;> simp [upload_to_telegram_background, h]

end YT
